import Mathlib

/-!
Verification of the resilient data-access layer of this repository
(`python-decorators-0x01`): the connection-scope decorator
(`1-with_db_connection.py`), the transaction guard (`2-transactional.py`),
the retry policy (`3-retry_on_failure.py`) and the query-result cache
(`4-cache_query.py`), shallowly embedded as pure Lean functions.

Conventions of the embedding:
* Python exceptions are `PyErr` values carrying an exception class drawn
  from the finite hierarchy `PyClass` (with the real subclass chains of
  `sqlite3` and of the built-in `OSError` family).
* Wall-clock time is an explicit `Nat` tick passed to each call
  (`datetime.now()` / TTL arithmetic becomes `Nat` arithmetic).
* Floating point delays are modelled as `ℚ`; `random.random()` becomes an
  explicit stream `rand : Nat → ℚ` with values in `[0, 1)`.
* The wrapped user function ("Query Execution Facade") is an explicit
  argument: for the retry policy it is `op : Nat → Except PyErr QVal`
  giving the outcome of the i-th invocation; for the cache it is the fixed
  value `fval` the function returns (the backing data being unchanged);
  for the guards it is an outcome `Except PyErr QVal` plus, for the
  transaction guard, the list of operations the body executed on the
  connection before returning or raising.
* `sha256` in the cache-key derivation is modelled by the digested text
  itself (`key_data`): the claims depend only on determinism and on
  distinct inputs giving distinct keys.
-/

namespace DataAccess

/-! ### Python exception classes

The classes that occur in the decorator modules, with their real
superclass chains (`sqlite3.IntegrityError < sqlite3.DatabaseError <
sqlite3.Error < Exception`, `ConnectionError < OSError < Exception`,
`TimeoutError < OSError < Exception`, `IndexError < LookupError <
Exception`). -/

inductive PyClass where
  | pyException
  | osError
  | connectionError
  | timeoutError
  | sqliteError
  | databaseError
  | operationalError
  | integrityError
  | valueError
  | runtimeError
  | lookupError
  | indexError
deriving DecidableEq, BEq, Repr

/-- The method-resolution chain of each class up to `Exception`
(the class itself first). -/
def superchain : PyClass → List PyClass
  | .pyException => [.pyException]
  | .osError => [.osError, .pyException]
  | .connectionError => [.connectionError, .osError, .pyException]
  | .timeoutError => [.timeoutError, .osError, .pyException]
  | .sqliteError => [.sqliteError, .pyException]
  | .databaseError => [.databaseError, .sqliteError, .pyException]
  | .operationalError => [.operationalError, .databaseError, .sqliteError, .pyException]
  | .integrityError => [.integrityError, .databaseError, .sqliteError, .pyException]
  | .valueError => [.valueError, .pyException]
  | .runtimeError => [.runtimeError, .pyException]
  | .lookupError => [.lookupError, .pyException]
  | .indexError => [.indexError, .lookupError, .pyException]

/-- Python's `issubclass(c, d)`. -/
def isSubclassOf (c d : PyClass) : Bool := (superchain c).contains d

/-- A raised Python exception: its class and its message. -/
structure PyErr where
  cls : PyClass
  msg : String
deriving DecidableEq, Repr

/-- Python's `isinstance(e, tup)` for a tuple of exception classes, as used
by an `except tup:` clause. -/
def isInstanceOfAny (e : PyErr) (cs : List PyClass) : Bool :=
  cs.any (fun c => isSubclassOf e.cls c)

/-! ### Values

`QVal` models the results a wrapped query function can return, keeping the
distinctions the cache layer inspects: a list of `sqlite3.Row` objects, a
list of plain dicts, a single `Row`, a single dict, or anything else
(modelled by an integer payload / `None`).  A row or a dict is a list of
column-name/value pairs. -/

inductive QVal where
  | rows : List (List (String × Int)) → QVal
  | dicts : List (List (String × Int)) → QVal
  | row : List (String × Int) → QVal
  | dict : List (String × Int) → QVal
  | plain : Int → QVal
  | pyNone : QVal
deriving DecidableEq, Repr

/-- A generic Python argument value for `*args` / `**kwargs` plumbing. -/
inductive PyV where
  | str : String → PyV
  | int : Int → PyV
deriving DecidableEq, Repr

/-- An opaque live sqlite3 connection handle. -/
structure Conn where
  id : Nat
deriving DecidableEq, Repr

/-! ## Connection Scope — `with_db_connection` (`1-with_db_connection.py`)

The wrapper pops `db_path` from the keyword arguments (defaulting to
`'users.db'`), opens a connection to it, calls the wrapped function with
the connection as first positional argument followed by the original
`*args, **kwargs`, commits on success, rolls back and re-raises on any
exception, and in a `finally:` block closes the connection iff one was
opened. -/

/-- Python's `kwargs.get(k)` on a keyword-argument mapping (first binding wins, as
in a Python dict whose keys are unique). -/
def kwGet (k : String) (kwargs : List (String × PyV)) : Option PyV :=
  List.lookup k kwargs

/-- The mapping left after `kwargs.pop(k, default)`: every binding of `k`
is gone. -/
def kwDrop (k : String) (kwargs : List (String × PyV)) : List (String × PyV) :=
  kwargs.filter (fun kv => kv.1 != k)

/-- One recorded invocation of the wrapped function: the connection passed
as first positional argument, then the forwarded `*args` and `**kwargs`. -/
structure FuncCall where
  conn : Conn
  posArgs : List PyV
  kwargs : List (String × PyV)
deriving DecidableEq, Repr

/-- Observable outcome of one call through `with_db_connection`. -/
structure DbcResult where
  result : Except PyErr QVal
  /-- how many times `conn.close()` ran (the `finally:` block) -/
  closes : Nat
  /-- how many times `conn.commit()` ran -/
  commits : Nat
  /-- how many times `conn.rollback()` ran -/
  rollbacks : Nat
  /-- the invocations of the wrapped function, with their arguments -/
  invocations : List FuncCall
  /-- the database target handed to `sqlite3.connect` -/
  dbPath : PyV
deriving Repr

/-- The `with_db_connection` wrapper of `1-with_db_connection.py`.
`connect` is `sqlite3.connect` (it may raise), `func` the wrapped function
(outcome determined by the connection and the forwarded arguments). -/
def withDbConnection (connect : PyV → Except PyErr Conn)
    (func : Conn → List PyV → List (String × PyV) → Except PyErr QVal)
    (args : List PyV) (kwargs : List (String × PyV)) : DbcResult :=
  let dbPath := (kwGet "db_path" kwargs).getD (PyV.str "users.db")
  let kwargs' := kwDrop "db_path" kwargs
  match connect dbPath with
  | .error e =>
      -- `conn` is still `None`: no rollback, no close, the error propagates
      { result := .error e, closes := 0, commits := 0, rollbacks := 0,
        invocations := [], dbPath := dbPath }
  | .ok conn =>
      match func conn args kwargs' with
      | .ok v =>
          -- commit, return, then `finally: conn.close()`
          { result := .ok v, closes := 1, commits := 1, rollbacks := 0,
            invocations := [⟨conn, args, kwargs'⟩], dbPath := dbPath }
      | .error e =>
          -- `except`: rollback, re-raise, then `finally: conn.close()`
          { result := .error e, closes := 1, commits := 0, rollbacks := 1,
            invocations := [⟨conn, args, kwargs'⟩], dbPath := dbPath }

/-! ## Transaction Guard — `transactional` (`2-transactional.py`)

A connection in an open transaction is modelled as durable `committed`
work plus `pending` work of the current transaction.  The wrapped body is
given by the list of operations it executes on the connection before its
outcome (on an exception, `ops` is the partial work done up to the raise).
-/

/-- A connection-like object as the transaction guard sees it:  the
`hasExecute` / `hasCursor` flags model `hasattr(conn, 'execute')` /
`hasattr(conn, 'cursor')`. -/
structure TxConn where
  committed : List String
  pending : List String
  hasExecute : Bool
  hasCursor : Bool
deriving DecidableEq, Repr

/-- Model of `conn.commit()`: the pending work becomes durable. -/
def commitConn (c : TxConn) : TxConn :=
  { c with committed := c.committed ++ c.pending, pending := [] }

/-- Model of `conn.rollback()`: the whole open transaction is discarded. -/
def rollbackConn (c : TxConn) : TxConn :=
  { c with pending := [] }

/-- Observable outcome of one call through a transaction-guard wrapper. -/
structure TxResult where
  result : Except PyErr QVal
  /-- final state of `args[0]`, when there was one -/
  conn : Option TxConn
  /-- how many times the wrapped function was invoked -/
  funcCalls : Nat
deriving Repr

/-- The `transactional` wrapper: validate `args[0]`, run the body, commit
on success, roll back and re-raise on any exception. -/
def transactional (args : List TxConn)
    (bodyOps : List String) (bodyOutcome : Except PyErr QVal) : TxResult :=
  match args with
  | [] =>
      { result := .error ⟨.valueError,
          "Transactional decorator requires a database connection as first argument"⟩,
        conn := none, funcCalls := 0 }
  | conn :: _ =>
      if ¬ conn.hasExecute ∧ ¬ conn.hasCursor then
        { result := .error ⟨.valueError,
            "First argument must be a database connection object"⟩,
          conn := some conn, funcCalls := 0 }
      else
        let conn' := { conn with pending := conn.pending ++ bodyOps }
        match bodyOutcome with
        | .ok v =>
            { result := .ok v, conn := some (commitConn conn'), funcCalls := 1 }
        | .error e =>
            { result := .error e, conn := some (rollbackConn conn'), funcCalls := 1 }

/-- The `transactional_with_savepoints` wrapper: `SAVEPOINT sp` marks the
current pending prefix; on success `RELEASE SAVEPOINT sp` keeps the body's
work inside the enclosing transaction; on an exception `ROLLBACK TO
SAVEPOINT sp; RELEASE SAVEPOINT sp` discards exactly the work done after
the savepoint and the original exception is re-raised.  (This variant only
checks that `args` is nonempty.) -/
def transactionalWithSavepoints (args : List TxConn)
    (bodyOps : List String) (bodyOutcome : Except PyErr QVal) : TxResult :=
  match args with
  | [] =>
      { result := .error ⟨.valueError,
          "Transactional decorator requires a database connection as first argument"⟩,
        conn := none, funcCalls := 0 }
  | conn :: _ =>
      let mark := conn.pending.length
      let conn' := { conn with pending := conn.pending ++ bodyOps }
      match bodyOutcome with
      | .ok v =>
          { result := .ok v, conn := some conn', funcCalls := 1 }
      | .error e =>
          { result := .error e,
            conn := some { conn' with pending := conn'.pending.take mark },
            funcCalls := 1 }

/-! ## Retry Policy — `retry_on_failure` (`3-retry_on_failure.py`)

`retry_on_failure(retries, delay, backoff_factor, max_delay, exceptions,
transient_errors)` runs `for attempt in range(retries + 1)`, so a policy
with `retries = r` makes up to `r + 1` total invocations: the spec's
`maxAttempts` (the maximum number of times the operation is executed) is
`retries + 1`.  An exception matching `transient_errors` (by `isinstance`,
i.e. including subclasses) is retried while `attempt < retries`, after
sleeping `current_delay * (0.5 + random.random() * 0.5)` and updating
`current_delay = min(current_delay * backoff_factor, max_delay)`; on the
last attempt it is re-raised with the log line
`"failed after {retries + 1} attempts"`.  Any other exception is re-raised
at once (whether or not it matches `exceptions`, both branches raise the
original error unchanged, so the `exceptions` tuple does not change the
observable outcome and is not a field of the model). -/

structure RetryPolicy where
  retries : Nat
  delay : ℚ
  backoff : ℚ
  maxDelay : ℚ
  transients : List PyClass
deriving Repr

/-- The default `transient_errors` tuple:
`(sqlite3.OperationalError, sqlite3.DatabaseError, ConnectionError,
TimeoutError, OSError)`. -/
def defaultTransients : List PyClass :=
  [.operationalError, .databaseError, .connectionError, .timeoutError, .osError]

/-- The spec's `maxAttempts`: the maximum total number of invocations,
`retries + 1` (initial attempt plus `retries` re-tries). -/
def RetryPolicy.maxAttempts (p : RetryPolicy) : Nat := p.retries + 1

/-- Observable outcome of a run of the retry wrapper: the value or the
propagated error, the number of invocations of the wrapped operation, the
jittered waits slept between attempts (in order), and — for an error — the
attempt count surfaced with it (`some (retries+1)` from the final
`"failed after {retries + 1} attempts"` message when the transient budget
was exhausted, `none` when a non-transient error was raised at once). -/
inductive RetryResult where
  | ok (v : QVal) (invocations : Nat) (waits : List ℚ)
  | err (e : PyErr) (invocations : Nat) (waits : List ℚ) (reported : Option Nat)
deriving DecidableEq, Repr

def RetryResult.invocations : RetryResult → Nat
  | .ok _ n _ => n
  | .err _ n _ _ => n

def RetryResult.waits : RetryResult → List ℚ
  | .ok _ _ w => w
  | .err _ _ w _ => w

def RetryResult.reported : RetryResult → Option Nat
  | .ok _ _ _ => none
  | .err _ _ _ r => r

def RetryResult.errValue : RetryResult → Option PyErr
  | .ok _ _ _ => none
  | .err e _ _ _ => some e

def RetryResult.okValue : RetryResult → Option QVal
  | .ok v _ _ => some v
  | .err _ _ _ _ => none

/-- The retry loop.  `attempt` is the Python loop variable, `remaining`
the number of loop iterations the `range` still allows (a fuel that the
faithful entry point `retryRun` sets to `retries + 1`; the `remaining = 0`
case is the dead `raise RuntimeError` after the loop), `currentDelay` the
current pre-jitter delay and `waits` the accumulator of slept delays
(newest first, reversed on exit). -/
def retryLoop (p : RetryPolicy) (op : Nat → Except PyErr QVal) (rand : Nat → ℚ) :
    Nat → Nat → ℚ → List ℚ → RetryResult
  | _, 0, _, waits =>
      .err ⟨.runtimeError, "Unexpected end of retry loop"⟩ 0 waits.reverse none
  | attempt, remaining + 1, currentDelay, waits =>
      match op attempt with
      | .ok v => .ok v (attempt + 1) waits.reverse
      | .error e =>
          if isInstanceOfAny e p.transients then
            if attempt < p.retries then
              retryLoop p op rand (attempt + 1) remaining
                (min (currentDelay * p.backoff) p.maxDelay)
                (currentDelay * (1/2 + rand attempt * (1/2)) :: waits)
            else
              .err e (attempt + 1) waits.reverse (some (p.retries + 1))
          else
            .err e (attempt + 1) waits.reverse none

/-- One call through the `retry_on_failure(...)`-wrapped operation. -/
def retryRun (p : RetryPolicy) (op : Nat → Except PyErr QVal) (rand : Nat → ℚ) :
    RetryResult :=
  retryLoop p op rand 0 (p.retries + 1) p.delay []

/-- The pre-jitter delay before the (k+1)-st re-invocation, obtained by
iterating `current_delay = min(current_delay * backoff_factor, max_delay)`
k times from the starting delay. -/
def delayIter (p : RetryPolicy) : Nat → ℚ → ℚ
  | 0, d => d
  | k + 1, d => delayIter p k (min (d * p.backoff) p.maxDelay)

/-! ## Result Cache — `cache_query` (`4-cache_query.py`)

The wrapper sniffs the call arguments for the query text and the
parameters, bypasses the cache for anything that is not a `SELECT`/`WITH`
query, and otherwise keys the global `query_cache` by
`sha256(f"{func_name}:{normalized_query}:{params_str}")`.  On a valid hit
it returns the stored snapshot without invoking the wrapped function; on a
miss it invokes the function, stores a snapshot (sqlite3 `Row`s converted
to plain dicts) with a TTL, and runs `_cleanup_cache`. -/

/-- Query parameters: a positional tuple/list or a keyword dict. -/
inductive PyParams where
  | tup : List Int → PyParams
  | dict : List (String × Int) → PyParams
deriving DecidableEq, Repr

/-- A positional argument after the connection, as the sniffing loops
classify it: a string, a tuple/list/dict of parameters, or anything
else. -/
inductive PyArg where
  | str : String → PyArg
  | params : PyParams → PyArg
  | other : PyArg
deriving DecidableEq, Repr

/-- Python's `str.upper()`: upper-case every character. -/
def pyUpper (s : String) : String :=
  String.mk (s.data.map Char.toUpper)

/-- Python's `str.strip()`: drop leading and trailing whitespace. -/
def pyStrip (s : String) : String :=
  String.mk (((s.data.dropWhile Char.isWhitespace).reverse.dropWhile
    Char.isWhitespace).reverse)

/-- Python's `str.startswith(pre)`. -/
def pyStartsWith (s pre : String) : Bool :=
  pre.data.isPrefixOf s.data

/-- Python's `str.split()` with no separator: the maximal nonempty runs of
non-whitespace characters (`cur` accumulates the current run,
reversed). -/
def pySplitWordsAux (cur : List Char) : List Char → List (List Char)
  | [] => if cur.isEmpty then [] else [cur.reverse]
  | c :: cs =>
      if c.isWhitespace then
        if cur.isEmpty then pySplitWordsAux [] cs
        else cur.reverse :: pySplitWordsAux [] cs
      else pySplitWordsAux (c :: cur) cs

/-- Stable ascending insertion: place `x` before the first element
strictly greater under `lt`. -/
def insertAsc {α : Type} (lt : α → α → Bool) (x : α) : List α → List α
  | [] => [x]
  | y :: ys => if lt y x then y :: insertAsc lt x ys else x :: y :: ys

/-- Python's stable ascending `sorted(l, key=...)`, as insertion sort
(equal keys keep their original relative order). -/
def pySorted {α : Type} (lt : α → α → Bool) : List α → List α
  | [] => []
  | x :: xs => insertAsc lt x (pySorted lt xs)

/-- Whether `needle` occurs as a contiguous run inside `hay`. -/
def listIsInfix (needle hay : List Char) : Bool :=
  match hay with
  | [] => needle.isEmpty
  | _ :: t => needle.isPrefixOf hay || listIsInfix needle t

/-- Python's substring test `needle in hay`. -/
def strContains (hay needle : String) : Bool :=
  listIsInfix needle.toList hay.toList

/-- The positional-query test:
`any(keyword in arg.upper() for keyword in ['SELECT', 'WITH'])`. -/
def hasSelectOrWith (s : String) : Bool :=
  strContains (pyUpper s) "SELECT" || strContains (pyUpper s) "WITH"

/-- The loop scanning `args[1:]` for the first string argument that
mentions `SELECT` or `WITH`. -/
def findQueryArg : List PyArg → Option String
  | [] => none
  | .str s :: rest => if hasSelectOrWith s then some s else findQueryArg rest
  | _ :: rest => findQueryArg rest

/-- The loop scanning `args[1:]` for the first tuple/list/dict argument
(`arg != query` always holds for a non-string such argument). -/
def findParamsArg : List PyArg → Option PyParams
  | [] => none
  | .params p :: _ => some p
  | _ :: rest => findParamsArg rest

/-- Python's `a or b` on two optional strings (`None` and `""` are
falsy). -/
def pyOrStr : Option String → Option String → Option String
  | some s, b => if s = "" then b else some s
  | none, b => b

/-- Python truthiness of an optional parameters value (`None` and empty
containers are falsy). -/
def pyTruthyParams : Option PyParams → Bool
  | none => false
  | some (.tup vs) => !vs.isEmpty
  | some (.dict kvs) => !kvs.isEmpty

/-- Python's `a or b` on two optional parameters values. -/
def pyOrParams (a b : Option PyParams) : Option PyParams :=
  if pyTruthyParams a then a else b

/-- The query the wrapper ends up working with: the first matching
positional string, else `kwargs.get('query') or kwargs.get('sql')`. -/
def extractedQuery (args : List PyArg) (kwQuery kwSql : Option String) :
    Option String :=
  match findQueryArg args with
  | some s => some s
  | none => pyOrStr kwQuery kwSql

/-- The normalization `' '.join(query.split()).upper()`: collapse whitespace runs and
case-fold. -/
def pyNormalizeQuery (q : String) : String :=
  pyUpper (String.mk (List.intercalate [' '] (pySplitWordsAux [] q.data)))

/-- Python's `str(params)` for a tuple (Python prints a trailing comma for a
1-tuple). -/
def reprTuple : List Int → String
  | [v] => "(" ++ toString v ++ ",)"
  | vs => "(" ++ String.intercalate ", " (vs.map toString) ++ ")"

/-- Python's `json.dumps(params, sort_keys=True)` for a dict of int values. -/
def jsonSortedDict (kvs : List (String × Int)) : String :=
  "\x7b" ++ String.intercalate ", "
    ((pySorted (fun a b => decide (a.1 < b.1)) kvs).map
      (fun kv => "\"" ++ kv.1 ++ "\": " ++ toString kv.2)) ++ "\x7d"

/-- The `params_str` of `_generate_cache_key`. -/
def paramsStr : Option PyParams → String
  | none => ""
  | some (.tup vs) => if vs.isEmpty then "" else reprTuple vs
  | some (.dict kvs) => if kvs.isEmpty then "" else jsonSortedDict kvs

/-- The key derivation `_generate_cache_key`: the digested text
`f"{func_name}:{normalized_query}:{params_str}"`.  The `sha256` digest is
modelled by the digested text itself — the claims depend only on the key
being a deterministic function of these inputs. -/
def genCacheKey (query : String) (params : Option PyParams) (fname : String) :
    String :=
  fname ++ ":" ++ pyNormalizeQuery query ++ ":" ++ paramsStr params

/-- The snapshot conversion of `_store_in_cache`: a nonempty list whose
elements have `.keys` (a list of `sqlite3.Row`s) becomes a list of plain
dicts, a single object with `.keys` becomes a plain dict, anything else is
stored as is. -/
def toCached : QVal → QVal
  | .rows (r :: rs) => .dicts (r :: rs)
  | .rows [] => .rows []
  | .dicts rs => .dicts rs
  | .row r => .dict r
  | .dict r => .dict r
  | .plain n => .plain n
  | .pyNone => .pyNone

/-- One entry of the global `query_cache`. -/
structure CacheEntry where
  result : QVal
  query : String
  params : Option PyParams
  funcName : String
  cachedAt : Nat
  expiresAt : Nat
  hits : Nat
  lastAccessed : Nat
deriving DecidableEq, Repr

/-- Assignment `query_cache[key] = entry` on an insertion-ordered dict: replace in
place if the key is present, else append. -/
def dictSet (k : String) (v : CacheEntry) :
    List (String × CacheEntry) → List (String × CacheEntry)
  | [] => [(k, v)]
  | kv :: rest => if kv.1 = k then (k, v) :: rest else kv :: dictSet k v rest

/-- Deletion `del query_cache[key]`. -/
def dictDel (k : String) (cache : List (String × CacheEntry)) :
    List (String × CacheEntry) :=
  cache.filter (fun kv => kv.1 != k)

/-- The store `_store_in_cache(cache_key, result, query, params, _, func_name,
ttl_seconds)` (the recorded wall-clock `execution_time` is not
modelled). -/
def storeInCache (key : String) (result : QVal) (query : String)
    (params : Option PyParams) (fname : String) (ttlSeconds : Nat) (now : Nat)
    (cache : List (String × CacheEntry)) : List (String × CacheEntry) :=
  dictSet key
    { result := toCached result, query := query, params := params,
      funcName := fname, cachedAt := now, expiresAt := now + ttlSeconds,
      hits := 0, lastAccessed := now } cache

/-- The eviction `_cleanup_cache(max_entries)`: when the cache exceeds `max_entries`,
sort the entries by `last_accessed` ascending and delete the first
`len(cache) - max_entries + 10` of them from the dict.  The deletion loop
indexes `sorted_entries[i]` for each `i < entries_to_remove`, so when
`entries_to_remove` exceeds the number of entries it deletes every entry
and then raises `IndexError`; the returned pair is the resulting dict and
the raised error, if any. -/
def cleanupCache (cache : List (String × CacheEntry)) (maxEntries : Nat) :
    List (String × CacheEntry) × Option PyErr :=
  if cache.length ≤ maxEntries then (cache, none)
  else
    let sortedEntries :=
      pySorted (fun a b => decide (a.2.lastAccessed < b.2.lastAccessed)) cache
    let entriesToRemove := cache.length - maxEntries + 10
    let removedKeys := (sortedEntries.take entriesToRemove).map Prod.fst
    let cache' := cache.filter (fun kv => !(removedKeys.contains kv.1))
    if entriesToRemove ≤ sortedEntries.length then (cache', none)
    else (cache', some ⟨.indexError, "list index out of range"⟩)

/-- The parameters the basic wrapper ends up keying with: the first
positional tuple/list/dict, else
`kwargs.get('params') or kwargs.get('parameters')`. -/
def effectiveParams (args : List PyArg) (kwParams kwParameters : Option PyParams) :
    Option PyParams :=
  if pyTruthyParams (findParamsArg args) then findParamsArg args
  else pyOrParams kwParams kwParameters

/-- The parameters the advanced wrapper keys with (`kwargs.get('params')`
only). -/
def effectiveParamsAdv (args : List PyArg) (kwParams : Option PyParams) :
    Option PyParams :=
  if pyTruthyParams (findParamsArg args) then findParamsArg args else kwParams

/-- The classification test of the write path:
`query_upper = query.strip().upper()` starts with `SELECT` or `WITH`. -/
def readShaped (q : String) : Bool :=
  pyStartsWith (pyUpper (pyStrip q)) "SELECT" || pyStartsWith (pyUpper (pyStrip q)) "WITH"

/-- The global cache plus the number of invocations of the wrapped
function ("Query Execution Facade") made so far. -/
structure CacheCtx where
  cache : List (String × CacheEntry)
  calls : Nat
deriving DecidableEq, Repr

/-- One call through the basic `cache_query` wrapper.  `fval` is the value
the wrapped function returns (fixed: the backing data is unchanged), `now`
the wall-clock tick of the call.  The result is the returned value or the
propagated error, plus the new global state. -/
def cacheQuery (fname : String) (args : List PyArg) (kwQuery kwSql : Option String)
    (kwParams kwParameters : Option PyParams) (fval : QVal) (now : Nat)
    (ctx : CacheCtx) : Except PyErr QVal × CacheCtx :=
  let query? := extractedQuery args kwQuery kwSql
  let params := effectiveParams args kwParams kwParameters
  match query? with
  | none =>
      -- "No query found ..., skipping cache": call through
      (.ok fval, { ctx with calls := ctx.calls + 1 })
  | some query =>
      if query = "" then
        -- `if not query:` with a falsy keyword query: call through
        (.ok fval, { ctx with calls := ctx.calls + 1 })
      else if !(readShaped query) then
        -- "Non-SELECT query ..., skipping cache": call through
        (.ok fval, { ctx with calls := ctx.calls + 1 })
      else
        let key := genCacheKey query params fname
        let doMiss := fun (cache0 : List (String × CacheEntry)) =>
          let cache1 := storeInCache key fval query params fname 300 now cache0
          match cleanupCache cache1 100 with
          | (cache2, none) =>
              ((Except.ok fval : Except PyErr QVal),
                ({ cache := cache2, calls := ctx.calls + 1 } : CacheCtx))
          | (cache2, some e) =>
              (.error e, { cache := cache2, calls := ctx.calls + 1 })
        match List.lookup key ctx.cache with
        | some entry =>
            if now < entry.expiresAt then
              -- cache HIT: bump the hit counter, refresh last-access
              let bumped := { entry with hits := entry.hits + 1, lastAccessed := now }
              (.ok entry.result, { ctx with cache := dictSet key bumped ctx.cache })
            else
              -- cache EXPIRED: evict, then treat as a miss
              doMiss (dictDel key ctx.cache)
        | none => doMiss ctx.cache

/-- One call through a `cache_query_advanced(ttl_seconds, max_cache_size,
cache_read_only)` wrapper (same structure; keyword parameters come only
from `kwargs.get('params')`, and the read-only restriction can be turned
off). -/
def cacheQueryAdvanced (ttlSeconds maxCacheSize : Nat) (cacheReadOnly : Bool)
    (fname : String) (args : List PyArg) (kwQuery kwSql : Option String)
    (kwParams : Option PyParams) (fval : QVal) (now : Nat)
    (ctx : CacheCtx) : Except PyErr QVal × CacheCtx :=
  let query? := extractedQuery args kwQuery kwSql
  let params := effectiveParamsAdv args kwParams
  match query? with
  | none => (.ok fval, { ctx with calls := ctx.calls + 1 })
  | some query =>
      if query = "" then
        (.ok fval, { ctx with calls := ctx.calls + 1 })
      else if cacheReadOnly && !(readShaped query) then
        (.ok fval, { ctx with calls := ctx.calls + 1 })
      else
        let key := genCacheKey query params fname
        let doMiss := fun (cache0 : List (String × CacheEntry)) =>
          let cache1 := storeInCache key fval query params fname ttlSeconds now cache0
          match cleanupCache cache1 maxCacheSize with
          | (cache2, none) =>
              ((Except.ok fval : Except PyErr QVal),
                ({ cache := cache2, calls := ctx.calls + 1 } : CacheCtx))
          | (cache2, some e) =>
              (.error e, { cache := cache2, calls := ctx.calls + 1 })
        match List.lookup key ctx.cache with
        | some entry =>
            if now < entry.expiresAt then
              let bumped := { entry with hits := entry.hits + 1, lastAccessed := now }
              (.ok entry.result, { ctx with cache := dictSet key bumped ctx.cache })
            else
              doMiss (dictDel key ctx.cache)
        | none => doMiss ctx.cache

/-- A sequence of calls through `cache_query` with the same descriptor
(same function, arguments and backing data), at the given wall-clock
ticks, threading the global state. -/
def cacheCalls (fname : String) (args : List PyArg) (kwQuery kwSql : Option String)
    (kwParams kwParameters : Option PyParams) (fval : QVal) :
    List Nat → CacheCtx → List (Except PyErr QVal) × CacheCtx
  | [], ctx => ([], ctx)
  | t :: ts, ctx =>
      let r := cacheQuery fname args kwQuery kwSql kwParams kwParameters fval t ctx
      let rest := cacheCalls fname args kwQuery kwSql kwParams kwParameters fval ts r.2
      (r.1 :: rest.1, rest.2)

/-- One store of the capacity-2 eviction scenario: `cache_query_advanced`
with `ttl_seconds=300, max_cache_size=2, cache_read_only=True`, a distinct
`SELECT` query per fingerprint. -/
def evictCall (q : String) (v : QVal) (now : Nat) (ctx : CacheCtx) :
    Except PyErr QVal × CacheCtx :=
  cacheQueryAdvanced 300 2 true "fetch" [PyArg.str q] none none none v now ctx

/-- Fingerprint A stored into an empty cache at tick 0. -/
def evictDemo1 : Except PyErr QVal × CacheCtx :=
  evictCall "SELECT 1" (QVal.plain 1) 0 ⟨[], 0⟩

/-- Fingerprint B stored at tick 1. -/
def evictDemo2 : Except PyErr QVal × CacheCtx :=
  evictCall "SELECT 2" (QVal.plain 2) 1 evictDemo1.2

/-- Fingerprint C stored at tick 2. -/
def evictDemo3 : Except PyErr QVal × CacheCtx :=
  evictCall "SELECT 3" (QVal.plain 3) 2 evictDemo2.2

instance : DecidableEq (Except PyErr QVal)
  | .ok x, .ok y => decidable_of_iff (x = y) (by simp)
  | .error x, .error y => decidable_of_iff (x = y) (by simp)
  | .ok _, .error _ => isFalse nofun
  | .error _, .ok _ => isFalse nofun

/-! ## Theorems -/

/-- Looking up a key in a kwargs mapping it was popped from finds
nothing. -/
theorem kwGet_kwDrop (k : String) (kwargs : List (String × PyV)) :
    kwGet k (kwDrop k kwargs) = none := by
  induction kwargs with
  | nil => rfl
  | cons kv rest ih =>
      rcases kv with ⟨a, b⟩
      by_cases h : a = k
      · subst h
        simpa [kwDrop, List.filter_cons] using ih
      · have h1 : (a != k) = true := by simpa using h
        have h2 : (k == a) = false := by simpa using Ne.symm h
        simpa [kwDrop, kwGet, List.filter_cons, h1, List.lookup, h2] using ih

/-- C7: for every call through `with_db_connection`, if the connection is
acquired (`sqlite3.connect` returns a handle for the selected database
target) then `conn.close()` runs exactly once — on normal return of the
wrapped function and on any propagated error alike — and if acquisition
raises, no close is attempted and the acquisition error propagates. -/
theorem connection_release_invariant
    (connect : PyV → Except PyErr Conn)
    (func : Conn → List PyV → List (String × PyV) → Except PyErr QVal)
    (args : List PyV) (kwargs : List (String × PyV)) :
    (∀ c, connect ((kwGet "db_path" kwargs).getD (PyV.str "users.db")) = .ok c →
      (withDbConnection connect func args kwargs).closes = 1) ∧
    (∀ e, connect ((kwGet "db_path" kwargs).getD (PyV.str "users.db")) = .error e →
      (withDbConnection connect func args kwargs).closes = 0 ∧
      (withDbConnection connect func args kwargs).result = .error e) := by
  constructor
  · intro c h
    cases hf : func c args (kwDrop "db_path" kwargs) with
    | ok v => simp [withDbConnection, h, hf]
    | error e => simp [withDbConnection, h, hf]
  · intro e h
    exact ⟨by simp [withDbConnection, h], by simp [withDbConnection, h]⟩

/-- Witness for `connection_release_invariant`: a concrete successful
acquisition closes once; a concrete failing acquisition closes zero
times. -/
theorem connection_release_invariant_witness :
    (withDbConnection (fun _ => .ok ⟨0⟩)
      (fun _ _ _ => .ok (QVal.plain 1)) [] []).closes = 1 ∧
    (withDbConnection (fun _ => .error ⟨.sqliteError, "unable to open database file"⟩)
      (fun _ _ _ => .ok (QVal.plain 1)) [] []).closes = 0 :=
  ⟨(connection_release_invariant (fun _ => .ok ⟨0⟩)
      (fun _ _ _ => .ok (QVal.plain 1)) [] []).1 ⟨0⟩ rfl,
   ((connection_release_invariant
      (fun _ => .error ⟨.sqliteError, "unable to open database file"⟩)
      (fun _ _ _ => .ok (QVal.plain 1)) [] []).2
      ⟨.sqliteError, "unable to open database file"⟩ rfl).1⟩

/-- C10: `with_db_connection` consumes the `db_path` keyword argument
itself — the database target it connects to is `kwargs['db_path']` when
present and `'users.db'` otherwise — and every invocation of the wrapped
function receives the opened connection as its first positional argument
together with the original positional arguments and a keyword mapping from
which `db_path` is absent. -/
theorem db_path_consumed
    (connect : PyV → Except PyErr Conn)
    (func : Conn → List PyV → List (String × PyV) → Except PyErr QVal)
    (args : List PyV) (kwargs : List (String × PyV)) :
    (withDbConnection connect func args kwargs).dbPath
        = (kwGet "db_path" kwargs).getD (PyV.str "users.db") ∧
    ∀ call ∈ (withDbConnection connect func args kwargs).invocations,
      kwGet "db_path" call.kwargs = none ∧ call.posArgs = args ∧
      connect ((kwGet "db_path" kwargs).getD (PyV.str "users.db")) = .ok call.conn := by
  cases h : connect ((kwGet "db_path" kwargs).getD (PyV.str "users.db")) with
  | error e => simp [withDbConnection, h]
  | ok c =>
      cases hf : func c args (kwDrop "db_path" kwargs) with
      | ok v => simp [withDbConnection, h, hf, kwGet_kwDrop]
      | error e => simp [withDbConnection, h, hf, kwGet_kwDrop]

/-- Witness for `db_path_consumed`: with `db_path='test.db'` among the
keyword arguments, the target is `'test.db'` and the single invocation of
the wrapped function carries no `db_path` keyword. -/
theorem db_path_consumed_witness :
    (withDbConnection (fun _ => .ok ⟨7⟩) (fun _ _ _ => .ok QVal.pyNone)
        [PyV.int 1] [("db_path", PyV.str "test.db")]).dbPath = PyV.str "test.db" ∧
    kwGet "db_path" (FuncCall.mk ⟨7⟩ [PyV.int 1] []).kwargs = none := by
  have h := db_path_consumed (fun _ => .ok ⟨7⟩) (fun _ _ _ => .ok QVal.pyNone)
    [PyV.int 1] [("db_path", PyV.str "test.db")]
  exact ⟨by simpa using h.1, (h.2 (FuncCall.mk ⟨7⟩ [PyV.int 1] []) (by decide)).1⟩

/-- C9: the `transactional` guard, entered with no arguments at all or
with a first argument that is not connection-like (no `execute` and no
`cursor` attribute), raises a `ValueError` without ever invoking the
wrapped function. -/
theorem transactional_invalid_argument
    (bodyOps : List String) (bodyOutcome : Except PyErr QVal) :
    ((transactional [] bodyOps bodyOutcome).result =
        .error ⟨.valueError,
          "Transactional decorator requires a database connection as first argument"⟩ ∧
      (transactional [] bodyOps bodyOutcome).funcCalls = 0) ∧
    (∀ (conn : TxConn) (rest : List TxConn),
      conn.hasExecute = false → conn.hasCursor = false →
      (transactional (conn :: rest) bodyOps bodyOutcome).result =
          .error ⟨.valueError, "First argument must be a database connection object"⟩ ∧
      (transactional (conn :: rest) bodyOps bodyOutcome).funcCalls = 0) := by
  refine ⟨⟨rfl, rfl⟩, ?_⟩
  intro conn rest h1 h2
  simp [transactional, h1, h2]

/-- Witness for `transactional_invalid_argument`: a concrete object with
neither attribute is rejected before the body runs. -/
theorem transactional_invalid_argument_witness :
    (transactional [⟨[], [], false, false⟩] ["w"] (.ok (QVal.plain 1))).result =
        .error ⟨.valueError, "First argument must be a database connection object"⟩ ∧
    (transactional [⟨[], [], false, false⟩] ["w"] (.ok (QVal.plain 1))).funcCalls = 0 :=
  (transactional_invalid_argument ["w"] (.ok (QVal.plain 1))).2
    ⟨[], [], false, false⟩ [] rfl rfl

/-- C6: with a valid connection, `transactional` commits the transaction
(all prior pending work plus the body's work becomes durable) on success,
and on any error empties the open transaction (`conn.rollback()`) and
re-raises the original error unchanged; `transactional_with_savepoints`
keeps the body's work inside the enclosing open transaction on success,
and on any error restores the pending work exactly to its state at
savepoint creation — preserving earlier sibling work — and re-raises the
original error unchanged. -/
theorem transaction_guard_commit_rollback
    (conn : TxConn) (rest : List TxConn) (ops : List String)
    (hvalid : conn.hasExecute = true ∨ conn.hasCursor = true) :
    (∀ v, transactional (conn :: rest) ops (.ok v) =
      { result := .ok v,
        conn := some (TxConn.mk (conn.committed ++ (conn.pending ++ ops)) []
          conn.hasExecute conn.hasCursor),
        funcCalls := 1 }) ∧
    (∀ e, transactional (conn :: rest) ops (.error e) =
      { result := .error e,
        conn := some (TxConn.mk conn.committed [] conn.hasExecute conn.hasCursor),
        funcCalls := 1 }) ∧
    (∀ v, transactionalWithSavepoints (conn :: rest) ops (.ok v) =
      { result := .ok v,
        conn := some (TxConn.mk conn.committed (conn.pending ++ ops)
          conn.hasExecute conn.hasCursor),
        funcCalls := 1 }) ∧
    (∀ e, transactionalWithSavepoints (conn :: rest) ops (.error e) =
      { result := .error e, conn := some conn, funcCalls := 1 }) := by
  have hcond : ¬ (¬ conn.hasExecute = true ∧ ¬ conn.hasCursor = true) := by
    rcases hvalid with h | h <;> simp [h]
  refine ⟨?_, ?_, ?_, ?_⟩
  · intro v
    simp only [transactional]
    rw [if_neg hcond]
    rfl
  · intro e
    simp only [transactional]
    rw [if_neg hcond]
    rfl
  · intro v
    simp [transactionalWithSavepoints]
  · intro e
    simp [transactionalWithSavepoints, List.take_left]

/-- Witness for `transaction_guard_commit_rollback`: a concrete valid
connection with pending sibling work; the savepoint variant's rollback
restores exactly that sibling work and re-raises the original error, and
the root variant's commit makes all work durable. -/
theorem transaction_guard_commit_rollback_witness :
    transactionalWithSavepoints [⟨["c0"], ["sibling"], true, true⟩] ["w1", "w2"]
        (.error ⟨.integrityError, "UNIQUE constraint failed"⟩) =
      { result := .error ⟨.integrityError, "UNIQUE constraint failed"⟩,
        conn := some ⟨["c0"], ["sibling"], true, true⟩, funcCalls := 1 } ∧
    transactional [⟨["c0"], ["sibling"], true, true⟩] ["w1", "w2"] (.ok (QVal.plain 1)) =
      { result := .ok (QVal.plain 1),
        conn := some ⟨["c0", "sibling", "w1", "w2"], [], true, true⟩, funcCalls := 1 } := by
  have h := transaction_guard_commit_rollback ⟨["c0"], ["sibling"], true, true⟩ [] ["w1", "w2"]
    (Or.inl rfl)
  exact ⟨h.2.2.2 ⟨.integrityError, "UNIQUE constraint failed"⟩, h.1 (QVal.plain 1)⟩

/-- One transient-failure step of the retry loop below the retry budget:
sleep the jittered current delay, clamp the next delay, re-enter. -/
theorem retryLoop_step_transient (p : RetryPolicy) (op : Nat → Except PyErr QVal)
    (rand : Nat → ℚ) (attempt remaining : Nat) (d : ℚ) (ws : List ℚ) (e : PyErr)
    (he : op attempt = .error e) (ht : isInstanceOfAny e p.transients = true)
    (hlt : attempt < p.retries) :
    retryLoop p op rand attempt (remaining + 1) d ws =
      retryLoop p op rand (attempt + 1) remaining
        (min (d * p.backoff) p.maxDelay)
        (d * (1/2 + rand attempt * (1/2)) :: ws) := by
  simp [retryLoop, he, ht, hlt]

/-- A successful attempt ends the retry loop with the value. -/
theorem retryLoop_step_ok (p : RetryPolicy) (op : Nat → Except PyErr QVal)
    (rand : Nat → ℚ) (attempt remaining : Nat) (d : ℚ) (ws : List ℚ) (v : QVal)
    (hv : op attempt = .ok v) :
    retryLoop p op rand attempt (remaining + 1) d ws =
      .ok v (attempt + 1) ws.reverse := by
  simp [retryLoop, hv]

/-- A transient failure on the last allowed attempt surfaces the error
with the attempt count `retries + 1`. -/
theorem retryLoop_step_exhausted (p : RetryPolicy) (op : Nat → Except PyErr QVal)
    (rand : Nat → ℚ) (attempt remaining : Nat) (d : ℚ) (ws : List ℚ) (e : PyErr)
    (he : op attempt = .error e) (ht : isInstanceOfAny e p.transients = true)
    (hge : ¬ attempt < p.retries) :
    retryLoop p op rand attempt (remaining + 1) d ws =
      .err e (attempt + 1) ws.reverse (some (p.retries + 1)) := by
  simp [retryLoop, he, ht, hge]

/-- A non-transient failure is re-raised at once. -/
theorem retryLoop_step_raise (p : RetryPolicy) (op : Nat → Except PyErr QVal)
    (rand : Nat → ℚ) (attempt remaining : Nat) (d : ℚ) (ws : List ℚ) (e : PyErr)
    (he : op attempt = .error e) (ht : isInstanceOfAny e p.transients = false) :
    retryLoop p op rand attempt (remaining + 1) d ws =
      .err e (attempt + 1) ws.reverse none := by
  simp [retryLoop, he, ht]

/-- Under an operation that fails transiently on every invocation, the
retry loop exhausts its budget: it surfaces the last attempt's error with
`retries + 1` invocations and attempt count `retries + 1`. -/
theorem retryLoop_all_transient (p : RetryPolicy) (op : Nat → Except PyErr QVal)
    (rand : Nat → ℚ)
    (hop : ∀ i, ∃ e, op i = .error e ∧ isInstanceOfAny e p.transients = true) :
    ∀ (remaining attempt : Nat) (d : ℚ) (ws : List ℚ), attempt ≤ p.retries →
      remaining = p.retries + 1 - attempt →
      ∃ e ws', op p.retries = .error e ∧
        retryLoop p op rand attempt remaining d ws =
          .err e (p.retries + 1) ws' (some (p.retries + 1)) := by
  intro remaining
  induction remaining with
  | zero => intro attempt d ws h1 h2; omega
  | succ rem ih =>
      intro attempt d ws h1 h2
      obtain ⟨e, he, ht⟩ := hop attempt
      by_cases hlt : attempt < p.retries
      · obtain ⟨e', ws', he', hrec⟩ := ih (attempt + 1)
          (min (d * p.backoff) p.maxDelay)
          (d * (1/2 + rand attempt * (1/2)) :: ws) (by omega) (by omega)
        refine ⟨e', ws', he', ?_⟩
        rw [retryLoop_step_transient p op rand attempt rem d ws e he ht hlt]
        exact hrec
      · have hat : attempt = p.retries := by omega
        subst hat
        exact ⟨e, ws.reverse, he,
          retryLoop_step_exhausted p op rand p.retries rem d ws e he ht hlt⟩

/-- C1: an operation that fails with a transient-classified error on every
invocation, run under `retry_on_failure`, is invoked exactly
`maxAttempts = retries + 1` times; the surfaced failure is the last
attempt's error, carrying the attempt count `maxAttempts` (the final
`"failed after {retries + 1} attempts"` report). -/
theorem retry_termination_transient (p : RetryPolicy) (op : Nat → Except PyErr QVal)
    (rand : Nat → ℚ)
    (hop : ∀ i, ∃ e, op i = .error e ∧ isInstanceOfAny e p.transients = true) :
    (retryRun p op rand).invocations = p.maxAttempts ∧
    (retryRun p op rand).reported = some p.maxAttempts ∧
    ∃ e, op p.retries = .error e ∧ (retryRun p op rand).errValue = some e := by
  obtain ⟨e, ws', he, hrun⟩ :=
    retryLoop_all_transient p op rand hop (p.retries + 1) 0 p.delay [] (by omega) (by omega)
  have hr : retryRun p op rand = .err e (p.retries + 1) ws' (some (p.retries + 1)) := hrun
  rw [hr]
  exact ⟨rfl, rfl, e, he, rfl⟩

/-- Witness for `retry_termination_transient`: `retries=2`
(`maxAttempts=3`) and a permanently locked database give 3 invocations and
a surfaced attempt count of 3. -/
theorem retry_termination_transient_witness :
    (retryRun ⟨2, 1, 2, 30, defaultTransients⟩
      (fun _ => .error ⟨.operationalError, "database is locked"⟩)
      (fun _ => 0)).invocations = 3 ∧
    (retryRun ⟨2, 1, 2, 30, defaultTransients⟩
      (fun _ => .error ⟨.operationalError, "database is locked"⟩)
      (fun _ => 0)).reported = some 3 := by
  have h := retry_termination_transient ⟨2, 1, 2, 30, defaultTransients⟩
    (fun _ => .error ⟨.operationalError, "database is locked"⟩) (fun _ => 0)
    (fun i => ⟨⟨.operationalError, "database is locked"⟩, rfl, by decide⟩)
  exact ⟨h.1, h.2.1⟩

/-- C2 (amended): an operation whose first failure is not an instance of
any configured transient class is invoked exactly once — the error
propagates on first occurrence, unchanged, with no waits and no retry
attempt count. -/
theorem non_transient_single_invocation (p : RetryPolicy)
    (op : Nat → Except PyErr QVal) (rand : Nat → ℚ) (e : PyErr)
    (h0 : op 0 = .error e) (ht : isInstanceOfAny e p.transients = false) :
    retryRun p op rand = .err e 1 [] none := by
  have h := retryLoop_step_raise p op rand 0 p.retries p.delay [] e h0 ht
  simpa [retryRun] using h

/-- Witness for `non_transient_single_invocation`: a validation error
(`ValueError`, not in the default transient tuple) is raised at once. -/
theorem non_transient_single_invocation_witness :
    retryRun ⟨3, 2, 1, 30, defaultTransients⟩
      (fun _ => .error ⟨.valueError, "User with ID 999 not found"⟩) (fun _ => 0) =
      .err ⟨.valueError, "User with ID 999 not found"⟩ 1 [] none :=
  non_transient_single_invocation ⟨3, 2, 1, 30, defaultTransients⟩
    (fun _ => .error ⟨.valueError, "User with ID 999 not found"⟩) (fun _ => 0)
    ⟨.valueError, "User with ID 999 not found"⟩ rfl (by decide)

/-- C2 counterexample: a constraint violation (`sqlite3.IntegrityError`)
is a subclass of `sqlite3.DatabaseError`, which the default
`transient_errors` tuple contains, so under the default policy
(`retries=3`) a permanently failing constraint violation is invoked 4
times — not once. -/
theorem permanent_error_retried_counterexample :
    (retryRun ⟨3, 2, 1, 30, defaultTransients⟩
      (fun _ => .error ⟨.integrityError, "UNIQUE constraint failed: users.email"⟩)
      (fun _ => 0)).invocations = 4 ∧
    (retryRun ⟨3, 2, 1, 30, defaultTransients⟩
      (fun _ => .error ⟨.integrityError, "UNIQUE constraint failed: users.email"⟩)
      (fun _ => 0)).invocations ≠ 1 ∧
    isSubclassOf .integrityError .databaseError = true := by
  decide

/-- The waits accumulator of the retry loop only prepends: a run started
with accumulator `ws` produces `ws.reverse` followed by the waits of the
run started empty. -/
theorem retryLoop_waits_append (p : RetryPolicy) (op : Nat → Except PyErr QVal)
    (rand : Nat → ℚ) :
    ∀ (remaining attempt : Nat) (d : ℚ) (ws : List ℚ),
      (retryLoop p op rand attempt remaining d ws).waits =
        ws.reverse ++ (retryLoop p op rand attempt remaining d []).waits := by
  intro remaining
  induction remaining with
  | zero => intro attempt d ws; simp [retryLoop, RetryResult.waits]
  | succ rem ih =>
      intro attempt d ws
      cases he : op attempt with
      | ok v =>
          rw [retryLoop_step_ok p op rand attempt rem d ws v he,
            retryLoop_step_ok p op rand attempt rem d [] v he]
          simp [RetryResult.waits]
      | error e =>
          cases ht : isInstanceOfAny e p.transients with
          | false =>
              rw [retryLoop_step_raise p op rand attempt rem d ws e he ht,
                retryLoop_step_raise p op rand attempt rem d [] e he ht]
              simp [RetryResult.waits]
          | true =>
              by_cases hlt : attempt < p.retries
              · rw [retryLoop_step_transient p op rand attempt rem d ws e he ht hlt,
                  retryLoop_step_transient p op rand attempt rem d [] e he ht hlt,
                  ih (attempt + 1) (min (d * p.backoff) p.maxDelay)
                    (d * (1/2 + rand attempt * (1/2)) :: ws),
                  ih (attempt + 1) (min (d * p.backoff) p.maxDelay)
                    [d * (1/2 + rand attempt * (1/2))]]
                simp
              · rw [retryLoop_step_exhausted p op rand attempt rem d ws e he ht hlt,
                  retryLoop_step_exhausted p op rand attempt rem d [] e he ht hlt]
                simp [RetryResult.waits]

/-- The k-th wait of a retry run started at `attempt` with current delay
`d` is the k-times-clamped delay, jittered with `rand (attempt + k)`. -/
theorem retryLoop_waits_formula (p : RetryPolicy) (op : Nat → Except PyErr QVal)
    (rand : Nat → ℚ) :
    ∀ (remaining attempt : Nat) (d : ℚ) (k : Nat) (w : ℚ),
      ((retryLoop p op rand attempt remaining d []).waits)[k]? = some w →
      w = delayIter p k d * (1/2 + rand (attempt + k) * (1/2)) := by
  intro remaining
  induction remaining with
  | zero => intro attempt d k w h; simp [retryLoop, RetryResult.waits] at h
  | succ rem ih =>
      intro attempt d k w h
      cases he : op attempt with
      | ok v =>
          rw [retryLoop_step_ok p op rand attempt rem d [] v he] at h
          simp [RetryResult.waits] at h
      | error e =>
          cases ht : isInstanceOfAny e p.transients with
          | false =>
              rw [retryLoop_step_raise p op rand attempt rem d [] e he ht] at h
              simp [RetryResult.waits] at h
          | true =>
              by_cases hlt : attempt < p.retries
              · rw [retryLoop_step_transient p op rand attempt rem d [] e he ht hlt,
                  retryLoop_waits_append p op rand rem (attempt + 1)
                    (min (d * p.backoff) p.maxDelay)
                    [d * (1/2 + rand attempt * (1/2))]] at h
                cases k with
                | zero =>
                    simp at h
                    rw [← h]
                    simp [delayIter]
                | succ k =>
                    simp at h
                    have hk := ih (attempt + 1) (min (d * p.backoff) p.maxDelay) k w h
                    rw [hk]
                    have harg : attempt + 1 + k = attempt + (k + 1) := by omega
                    rw [harg]
                    rfl
              · rw [retryLoop_step_exhausted p op rand attempt rem d [] e he ht hlt] at h
                simp [RetryResult.waits] at h

/-- Closed form of the clamped-delay iteration: starting at or below the
cap, k clamped doublings give `min (d * backoff ^ k) maxDelay`. -/
theorem delayIter_closed (p : RetryPolicy) (hb : 0 ≤ p.backoff) :
    ∀ (k : Nat) (d : ℚ), 0 ≤ d → d ≤ p.maxDelay →
      delayIter p k d = min (d * p.backoff ^ k) p.maxDelay := by
  intro k
  induction k with
  | zero => intro d h0 hM; simp [delayIter, min_eq_left hM]
  | succ k ih =>
      intro d h0 hM
      have hM0 : (0:ℚ) ≤ p.maxDelay := le_trans h0 hM
      by_cases hc : d * p.backoff ≤ p.maxDelay
      · have h1 : delayIter p (k + 1) d = delayIter p k (d * p.backoff) := by
          simp [delayIter, min_eq_left hc]
        rw [h1, ih (d * p.backoff) (mul_nonneg h0 hb) hc]
        congr 1
        ring
      · push_neg at hc
        have hb1 : (1:ℚ) < p.backoff := by
          by_contra hb1
          push_neg at hb1
          have hle : d * p.backoff ≤ d := mul_le_of_le_one_right h0 hb1
          linarith
        have hpow : (1:ℚ) ≤ p.backoff ^ k := one_le_pow₀ (le_of_lt hb1)
        have h1 : delayIter p (k + 1) d = delayIter p k p.maxDelay := by
          simp [delayIter, min_eq_right (le_of_lt hc)]
        have hfin : p.maxDelay ≤ d * p.backoff ^ (k + 1) := by
          have h2 : p.maxDelay * p.backoff ^ k ≤ d * p.backoff * p.backoff ^ k :=
            mul_le_mul_of_nonneg_right (le_of_lt hc) (pow_nonneg hb k)
          have h3 : p.maxDelay ≤ p.maxDelay * p.backoff ^ k :=
            le_mul_of_one_le_right hM0 hpow
          calc p.maxDelay ≤ d * p.backoff * p.backoff ^ k := le_trans h3 h2
            _ = d * p.backoff ^ (k + 1) := by ring
        rw [h1, ih p.maxDelay hM0 (le_refl _),
          min_eq_right (le_mul_of_one_le_right hM0 hpow), min_eq_right hfin]

/-- A run with `retries = 2` that fails transiently twice and then
succeeds: three invocations, and the two waits are the base delay and the
clamped second delay, each jittered. -/
theorem retry_two_then_ok (p : RetryPolicy) (op : Nat → Except PyErr QVal)
    (rand : Nat → ℚ) (v : QVal) (e0 e1 : PyErr) (hr : p.retries = 2)
    (h0 : op 0 = .error e0) (ht0 : isInstanceOfAny e0 p.transients = true)
    (h1 : op 1 = .error e1) (ht1 : isInstanceOfAny e1 p.transients = true)
    (h2 : op 2 = .ok v) :
    retryRun p op rand =
      .ok v 3 [p.delay * (1/2 + rand 0 * (1/2)),
        min (p.delay * p.backoff) p.maxDelay * (1/2 + rand 1 * (1/2))] := by
  have hu : retryRun p op rand = retryLoop p op rand 0 (2 + 1) p.delay [] := by
    rw [retryRun, hr]
  rw [hu,
    retryLoop_step_transient p op rand 0 2 p.delay [] e0 h0 ht0 (by omega),
    retryLoop_step_transient p op rand 1 1 (min (p.delay * p.backoff) p.maxDelay)
      [p.delay * (1/2 + rand 0 * (1/2))] e1 h1 ht1 (by omega),
    retryLoop_step_ok p op rand 2 0
      (min (min (p.delay * p.backoff) p.maxDelay * p.backoff) p.maxDelay)
      [min (p.delay * p.backoff) p.maxDelay * (1/2 + rand 1 * (1/2)),
        p.delay * (1/2 + rand 0 * (1/2))] v h2]
  simp

/-- A run with `retries = 1` that fails transiently twice: two
invocations, one wait equal to the jittered base delay, attempt count 2
surfaced. -/
theorem retry_one_retry_waits (p : RetryPolicy) (op : Nat → Except PyErr QVal)
    (rand : Nat → ℚ) (e0 e1 : PyErr) (hr : p.retries = 1)
    (h0 : op 0 = .error e0) (ht0 : isInstanceOfAny e0 p.transients = true)
    (h1 : op 1 = .error e1) (ht1 : isInstanceOfAny e1 p.transients = true) :
    retryRun p op rand =
      .err e1 2 [p.delay * (1/2 + rand 0 * (1/2))] (some (p.retries + 1)) := by
  have hu : retryRun p op rand = retryLoop p op rand 0 (1 + 1) p.delay [] := by
    rw [retryRun, hr]
  rw [hu,
    retryLoop_step_transient p op rand 0 1 p.delay [] e0 h0 ht0 (by omega),
    retryLoop_step_exhausted p op rand 1 0 (min (p.delay * p.backoff) p.maxDelay)
      [p.delay * (1/2 + rand 0 * (1/2))] e1 h1 ht1 (by omega)]
  simp

/-- C5 (amended): for a policy with `baseDelay ≤ maxDelay` (the first wait
is never clamped by the source, so the spec formula needs this), the k-th
wait of any run is `min(baseDelay * backoff ^ k, maxDelay)` scaled by a
jitter factor in `[1 - 1/2, 1]`; and in the scenario
`maxAttempts = 3 (retries = 2), baseDelay = 1, multiplier = 2` with two
transient failures then success, there are 3 invocations and the waits are
the pre-jitter delays 1 and 2, each jittered. -/
theorem delay_schedule_amended :
    (∀ (p : RetryPolicy) (op : Nat → Except PyErr QVal) (rand : Nat → ℚ),
      0 ≤ p.delay → p.delay ≤ p.maxDelay → 0 ≤ p.backoff →
      (∀ i, 0 ≤ rand i ∧ rand i < 1) →
      ∀ (k : Nat) (w : ℚ), ((retryRun p op rand).waits)[k]? = some w →
        ∃ f, 1 - (1:ℚ)/2 ≤ f ∧ f ≤ 1 ∧
          w = min (p.delay * p.backoff ^ k) p.maxDelay * f) ∧
    (∀ (op : Nat → Except PyErr QVal) (rand : Nat → ℚ) (v : QVal) (e0 e1 : PyErr),
      op 0 = .error e0 → isInstanceOfAny e0 defaultTransients = true →
      op 1 = .error e1 → isInstanceOfAny e1 defaultTransients = true →
      op 2 = .ok v →
      retryRun ⟨2, 1, 2, 30, defaultTransients⟩ op rand =
        .ok v 3 [1 * (1/2 + rand 0 * (1/2)), 2 * (1/2 + rand 1 * (1/2))]) := by
  constructor
  · intro p op rand h0 hM hb hrand k w hw
    have hgot := retryLoop_waits_formula p op rand (p.retries + 1) 0 p.delay k w hw
    refine ⟨1/2 + rand k * (1/2), ?_, ?_, ?_⟩
    · have := (hrand k).1
      linarith
    · have := (hrand k).2
      linarith
    · rw [hgot, delayIter_closed p hb k p.delay h0 hM]
      norm_num
  · intro op rand v e0 e1 h0 ht0 h1 ht1 h2
    have h := retry_two_then_ok ⟨2, 1, 2, 30, defaultTransients⟩ op rand v e0 e1
      rfl h0 ht0 h1 ht1 h2
    rw [h]
    norm_num

/-- Witness for `delay_schedule_amended`: at `baseDelay = 1 ≤ 30 =
maxDelay` the first wait `1/2` (with zero jitter draw) matches the
formula, and the concrete two-failures-then-success scenario returns the
value after 3 invocations with waits `[1/2, 1]`. -/
theorem delay_schedule_amended_witness :
    (∃ f, 1 - (1:ℚ)/2 ≤ f ∧ f ≤ 1 ∧
      ((1:ℚ)/2) = min ((1:ℚ) * 2 ^ 0) 30 * f) ∧
    retryRun ⟨2, 1, 2, 30, defaultTransients⟩
        (fun i => if i < 2 then .error ⟨.operationalError, "database is locked"⟩
                  else .ok (QVal.plain 7)) (fun _ => 0) =
      .ok (QVal.plain 7) 3 [1 * (1/2 + (0:ℚ) * (1/2)), 2 * (1/2 + (0:ℚ) * (1/2))] := by
  constructor
  · have hws := retry_one_retry_waits ⟨1, 1, 2, 30, defaultTransients⟩
      (fun _ => .error ⟨.operationalError, "database is locked"⟩) (fun _ => 0)
      ⟨.operationalError, "database is locked"⟩ ⟨.operationalError, "database is locked"⟩
      rfl rfl (by decide) rfl (by decide)
    have h := delay_schedule_amended.1 ⟨1, 1, 2, 30, defaultTransients⟩
      (fun _ => .error ⟨.operationalError, "database is locked"⟩) (fun _ => 0)
      (by norm_num) (by norm_num) (by norm_num)
      (fun i => by norm_num) 0 (1/2) (by rw [hws]; norm_num [RetryResult.waits])
    simpa using h
  · have h := delay_schedule_amended.2
      (fun i => if i < 2 then .error ⟨.operationalError, "database is locked"⟩
                else .ok (QVal.plain 7)) (fun _ => 0)
      (QVal.plain 7) ⟨.operationalError, "database is locked"⟩
      ⟨.operationalError, "database is locked"⟩
      rfl (by decide) rfl (by decide) rfl
    simpa using h

/-- C5 counterexample: with `baseDelay = 40 > 30 = maxDelay` the first
wait slept by the source is `40 * (1/2 + 0.9/2) = 38`, which no jitter
factor `f ≤ 1` can reconcile with the claimed
`min(baseDelay * backoff ^ 0, maxDelay) * f = 30 * f ≤ 30`. -/
theorem delay_schedule_counterexample :
    ((retryRun ⟨1, 40, 2, 30, defaultTransients⟩
        (fun _ => .error ⟨.operationalError, "database is locked"⟩)
        (fun _ => 9/10)).waits)[0]? = some 38 ∧
    ∀ f : ℚ, f ≤ 1 → min ((40:ℚ) * 2 ^ 0) 30 * f ≠ 38 := by
  constructor
  · have hws := retry_one_retry_waits ⟨1, 40, 2, 30, defaultTransients⟩
      (fun _ => .error ⟨.operationalError, "database is locked"⟩) (fun _ => 9/10)
      ⟨.operationalError, "database is locked"⟩ ⟨.operationalError, "database is locked"⟩
      rfl rfl (by decide) rfl (by decide)
    rw [hws]
    norm_num [RetryResult.waits]
  · intro f hf
    have h : min ((40:ℚ) * 2 ^ 0) 30 = 30 := by norm_num
    rw [h]
    intro heq
    nlinarith

/-- C8: a call whose sniffed query text is write-shaped — after stripping
and upper-casing it does not start with `SELECT` or `WITH` — or in which
no query is found at all, always bypasses the cache: the wrapped function
is invoked directly (one more facade call), its value is returned, and the
cache is neither read nor written. -/
theorem write_query_bypasses_cache (fname : String) (args : List PyArg)
    (kwQuery kwSql : Option String) (kwParams kwParameters : Option PyParams)
    (fval : QVal) (now : Nat) (ctx : CacheCtx) :
    (extractedQuery args kwQuery kwSql = none →
      cacheQuery fname args kwQuery kwSql kwParams kwParameters fval now ctx =
        (.ok fval, { ctx with calls := ctx.calls + 1 })) ∧
    (∀ q, extractedQuery args kwQuery kwSql = some q → readShaped q = false →
      cacheQuery fname args kwQuery kwSql kwParams kwParameters fval now ctx =
        (.ok fval, { ctx with calls := ctx.calls + 1 })) := by
  constructor
  · intro h
    simp [cacheQuery, h]
  · intro q h hr
    by_cases hq : q = ""
    · simp [cacheQuery, h, hq]
    · simp [cacheQuery, h, hq, hr]

/-- Witness for `write_query_bypasses_cache`: an `UPDATE` passed as the
`query` keyword argument is executed directly and the cache state is
untouched. -/
theorem write_query_bypasses_cache_witness :
    cacheQuery "f" [] (some "UPDATE users SET email = ? WHERE id = ?") none none none
        (QVal.plain 3) 0 ⟨[], 5⟩ =
      (.ok (QVal.plain 3), ⟨[], 6⟩) := by
  have h := (write_query_bypasses_cache "f" []
    (some "UPDATE users SET email = ? WHERE id = ?") none none none
    (QVal.plain 3) 0 ⟨[], 5⟩).2
    "UPDATE users SET email = ? WHERE id = ?" (by decide) (by decide)
  simpa using h

/-- A first `cache_query` call on a read-shaped query with an empty cache:
a miss that invokes the wrapped function, stores the snapshot with TTL
300, and returns the original value. -/
theorem cacheQuery_first_miss (fname : String) (args : List PyArg)
    (kwQuery kwSql : Option String) (kwParams kwParameters : Option PyParams)
    (fval : QVal) (q : String) (t calls0 : Nat)
    (hq : extractedQuery args kwQuery kwSql = some q) (hr : readShaped q = true) :
    cacheQuery fname args kwQuery kwSql kwParams kwParameters fval t ⟨[], calls0⟩ =
      (.ok fval,
        ⟨[(genCacheKey q (effectiveParams args kwParams kwParameters) fname,
           ⟨toCached fval, q, effectiveParams args kwParams kwParameters, fname,
            t, t + 300, 0, t⟩)], calls0 + 1⟩) := by
  have hq0 : ¬ q = "" := by
    intro h
    rw [h] at hr
    have hre : readShaped "" = false := by decide
    rw [hre] at hr
    cases hr
  simp [cacheQuery, hq, hq0, hr, storeInCache, dictSet, cleanupCache]

/-- A `cache_query` call on a read-shaped query whose key is present and
unexpired: a hit that returns the stored snapshot, bumps the hit counter
and refreshes the last-access time without invoking the wrapped
function. -/
theorem cacheQuery_hit (fname : String) (args : List PyArg)
    (kwQuery kwSql : Option String) (kwParams kwParameters : Option PyParams)
    (fval : QVal) (q : String) (u : Nat) (entry : CacheEntry) (calls0 : Nat)
    (hq : extractedQuery args kwQuery kwSql = some q) (hr : readShaped q = true)
    (hu : u < entry.expiresAt) :
    cacheQuery fname args kwQuery kwSql kwParams kwParameters fval u
      ⟨[(genCacheKey q (effectiveParams args kwParams kwParameters) fname, entry)],
        calls0⟩ =
      (.ok entry.result,
        ⟨[(genCacheKey q (effectiveParams args kwParams kwParameters) fname,
           { entry with hits := entry.hits + 1, lastAccessed := u })], calls0⟩) := by
  have hq0 : ¬ q = "" := by
    intro h
    rw [h] at hr
    have hre : readShaped "" = false := by decide
    rw [hre] at hr
    cases hr
  simp [cacheQuery, hq, hq0, hr, hu, dictSet, List.lookup]

/-- Unfolding one call of the call-sequence driver. -/
theorem cacheCalls_cons (fname : String) (args : List PyArg)
    (kwQuery kwSql : Option String) (kwParams kwParameters : Option PyParams)
    (fval : QVal) (t : Nat) (ts : List Nat) (ctx : CacheCtx) :
    cacheCalls fname args kwQuery kwSql kwParams kwParameters fval (t :: ts) ctx =
      ((cacheQuery fname args kwQuery kwSql kwParams kwParameters fval t ctx).1 ::
        (cacheCalls fname args kwQuery kwSql kwParams kwParameters fval ts
          (cacheQuery fname args kwQuery kwSql kwParams kwParameters fval t ctx).2).1,
       (cacheCalls fname args kwQuery kwSql kwParams kwParameters fval ts
          (cacheQuery fname args kwQuery kwSql kwParams kwParameters fval t ctx).2).2) :=
  rfl

/-- Every call after the first, within the entry expiry, returns the
stored snapshot without invoking the wrapped function, keeping the cache a
singleton for the same key with the same snapshot and expiry (only the hit
counter and last-access time move). -/
theorem cacheCalls_hits (fname : String) (args : List PyArg)
    (kwQuery kwSql : Option String) (kwParams kwParameters : Option PyParams)
    (fval : QVal) (q : String) (R : QVal) (q0 : String) (p0 : Option PyParams)
    (f0 : String) (ca E : Nat)
    (hq : extractedQuery args kwQuery kwSql = some q) (hr : readShaped q = true) :
    ∀ (ts : List Nat) (hits la calls0 : Nat), (∀ u ∈ ts, u < E) →
      (cacheCalls fname args kwQuery kwSql kwParams kwParameters fval ts
          ⟨[(genCacheKey q (effectiveParams args kwParams kwParameters) fname,
             ⟨R, q0, p0, f0, ca, E, hits, la⟩)], calls0⟩).1
        = ts.map (fun _ => .ok R) ∧
      (cacheCalls fname args kwQuery kwSql kwParams kwParameters fval ts
          ⟨[(genCacheKey q (effectiveParams args kwParams kwParameters) fname,
             ⟨R, q0, p0, f0, ca, E, hits, la⟩)], calls0⟩).2.calls = calls0 := by
  intro ts
  induction ts with
  | nil => intro hits la calls0 h3; exact ⟨rfl, rfl⟩
  | cons u ts ih =>
      intro hits la calls0 h3
      have hu : u < E := h3 u (by simp)
      have hstep := cacheQuery_hit fname args kwQuery kwSql kwParams kwParameters
        fval q u ⟨R, q0, p0, f0, ca, E, hits, la⟩ calls0 hq hr hu
      obtain ⟨ih1, ih2⟩ := ih (hits + 1) u calls0
        (fun x hx => h3 x (List.mem_cons_of_mem u hx))
      constructor
      · rw [cacheCalls_cons, hstep]
        dsimp only
        rw [List.map_cons, ih1]
      · rw [cacheCalls_cons, hstep]
        dsimp only
        exact ih2

/-- C4 (amended): for a fixed read-shaped descriptor and unchanged backing
data, starting from an empty cache, the first call invokes the wrapped
function and returns its value, and every repeated call within the TTL
returns the stored snapshot (the first value with `sqlite3.Row` results
converted to plain dicts) without invoking the wrapped function again: all
repeats are bit-identical to each other, and the facade is invoked exactly
once across all the calls. -/
theorem cache_idempotence_amended (fname : String) (args : List PyArg)
    (kwQuery kwSql : Option String) (kwParams kwParameters : Option PyParams)
    (fval : QVal) (q : String) (t : Nat) (ts : List Nat) (calls0 : Nat)
    (hq : extractedQuery args kwQuery kwSql = some q) (hr : readShaped q = true)
    (hts : ∀ u ∈ ts, u < t + 300) :
    (cacheCalls fname args kwQuery kwSql kwParams kwParameters fval (t :: ts)
        ⟨[], calls0⟩).1
      = .ok fval :: ts.map (fun _ => .ok (toCached fval)) ∧
    (cacheCalls fname args kwQuery kwSql kwParams kwParameters fval (t :: ts)
        ⟨[], calls0⟩).2.calls = calls0 + 1 := by
  have hfirst := cacheQuery_first_miss fname args kwQuery kwSql kwParams kwParameters
    fval q t calls0 hq hr
  obtain ⟨h1, h2⟩ := cacheCalls_hits fname args kwQuery kwSql kwParams kwParameters
    fval q (toCached fval) q (effectiveParams args kwParams kwParameters) fname
    t (t + 300) hq hr ts 0 t (calls0 + 1) hts
  constructor
  · rw [cacheCalls_cons, hfirst]
    dsimp only
    rw [h1]
  · rw [cacheCalls_cons, hfirst]
    dsimp only
    exact h2

/-- Witness for `cache_idempotence_amended`: three calls at ticks 0, 1, 2
on the same `SELECT` with a plain result all return that result and make
exactly one facade invocation. -/
theorem cache_idempotence_amended_witness :
    (cacheCalls "f" [PyArg.str "SELECT * FROM users"] none none none none
        (QVal.plain 7) [0, 1, 2] ⟨[], 0⟩).1
      = [.ok (QVal.plain 7), .ok (QVal.plain 7), .ok (QVal.plain 7)] ∧
    (cacheCalls "f" [PyArg.str "SELECT * FROM users"] none none none none
        (QVal.plain 7) [0, 1, 2] ⟨[], 0⟩).2.calls = 1 := by
  have h := cache_idempotence_amended "f" [PyArg.str "SELECT * FROM users"]
    none none none none (QVal.plain 7) "SELECT * FROM users" 0 [1, 2] 0
    (by decide) (by decide) (by decide)
  exact ⟨by simpa using h.1, by simpa using h.2⟩

/-- C4 counterexample: with a `sqlite3.Row`-list result, the first call
returns the raw row list while the second call (a hit within TTL) returns
the dict-converted snapshot — the repeated call is not bit-identical to
the first call's result. -/
theorem cache_idempotence_counterexample :
    (cacheCalls "f" [PyArg.str "SELECT * FROM users"] none none none none
        (QVal.rows [[("id", 1)]]) [0, 1] ⟨[], 0⟩).1
      = [.ok (QVal.rows [[("id", 1)]]), .ok (QVal.dicts [[("id", 1)]])] ∧
    QVal.rows [[("id", 1)]] ≠ QVal.dicts [[("id", 1)]] := by
  decide

/-- Stable insertion produces a permutation of consing. -/
theorem insertAsc_perm {α : Type} (lt : α → α → Bool) (x : α) (l : List α) :
    (insertAsc lt x l).Perm (x :: l) := by
  induction l with
  | nil => simp [insertAsc]
  | cons y ys ih =>
      cases hlt : lt y x with
      | true =>
          simp only [insertAsc, hlt, if_true]
          exact (ih.cons y).trans (List.Perm.swap x y ys)
      | false => simp [insertAsc, hlt]

/-- The insertion sort modelling Python's `sorted` permutes its input. -/
theorem pySorted_perm {α : Type} (lt : α → α → Bool) (l : List α) :
    (pySorted lt l).Perm l := by
  induction l with
  | nil => simp [pySorted]
  | cons x xs ih =>
      simp only [pySorted]
      exact (insertAsc_perm lt x (pySorted lt xs)).trans (ih.cons x)

/-- Membership reading of `contains` on a string list. -/
theorem contains_iff_mem (l : List String) (x : String) :
    l.contains x = true ↔ x ∈ l := by
  simp [List.contains, List.elem_iff]

/-- Deleting, from a dict with pairwise-distinct keys, the entries whose
keys lie in a duplicate-free list of present keys removes exactly one
entry per key. -/
theorem filter_not_mem_keys_length {β : Type} :
    ∀ (R : List String) (c : List (String × β)),
      (c.map Prod.fst).Nodup → R.Nodup → (∀ k ∈ R, k ∈ c.map Prod.fst) →
      (c.filter (fun kv => !(R.contains kv.1))).length + R.length = c.length := by
  intro R c
  induction c generalizing R with
  | nil =>
      intro hnd hR hmem
      have hRnil : R = [] := by
        apply List.eq_nil_iff_forall_not_mem.mpr
        intro k hk
        simpa using hmem k hk
      subst hRnil
      simp
  | cons kv c ih =>
      intro hnd hR hmem
      have hnd' := hnd
      rw [List.map_cons, List.nodup_cons] at hnd'
      obtain ⟨ha, hcnd⟩ := hnd'
      by_cases hmem_a : kv.1 ∈ R
      · have hfc : List.filter (fun kv2 => !(R.contains kv2.1)) (kv :: c)
            = List.filter (fun kv2 => !(R.contains kv2.1)) c := by
          simp [List.filter_cons, hmem_a]
        have hsame : List.filter (fun kv2 => !(R.contains kv2.1)) c
            = List.filter (fun kv2 => !((R.erase kv.1).contains kv2.1)) c := by
          apply List.filter_congr
          intro kv2 hkv2
          have hne : kv2.1 ≠ kv.1 := by
            intro he
            exact ha (he ▸ List.mem_map_of_mem Prod.fst hkv2)
          have hiff : kv2.1 ∈ R.erase kv.1 ↔ kv2.1 ∈ R :=
            List.mem_erase_of_ne hne
          by_cases hin : kv2.1 ∈ R
          · rw [(contains_iff_mem R kv2.1).mpr hin,
              (contains_iff_mem (R.erase kv.1) kv2.1).mpr (hiff.mpr hin)]
          · have h1 : R.contains kv2.1 = false := by
              rw [← Bool.not_eq_true]
              exact fun hc => hin ((contains_iff_mem R kv2.1).mp hc)
            have h2 : (R.erase kv.1).contains kv2.1 = false := by
              rw [← Bool.not_eq_true]
              exact fun hc => hin (hiff.mp ((contains_iff_mem (R.erase kv.1) kv2.1).mp hc))
            rw [h1, h2]
        have hlen : (R.erase kv.1).length + 1 = R.length := by
          rw [List.length_erase_of_mem hmem_a]
          have : 0 < R.length := List.length_pos_of_mem hmem_a
          omega
        have hmem' : ∀ k ∈ R.erase kv.1, k ∈ c.map Prod.fst := by
          intro k hk
          have hkR := List.mem_of_mem_erase hk
          have hkne : k ≠ kv.1 := ((List.Nodup.mem_erase_iff hR).mp hk).1
          have hk2 := hmem k hkR
          rw [List.map_cons, List.mem_cons] at hk2
          rcases hk2 with h | h
          · exact absurd h hkne
          · exact h
        have hih := ih (R.erase kv.1) hcnd (hR.erase kv.1) hmem'
        rw [hfc, hsame]
        simp only [List.length_cons]
        omega
      · have hfc : List.filter (fun kv2 => !(R.contains kv2.1)) (kv :: c)
            = kv :: List.filter (fun kv2 => !(R.contains kv2.1)) c := by
          simp [List.filter_cons, hmem_a]
        have hmem' : ∀ k ∈ R, k ∈ c.map Prod.fst := by
          intro k hk
          have hk2 := hmem k hk
          rw [List.map_cons, List.mem_cons] at hk2
          rcases hk2 with h | h
          · exact absurd (h ▸ hk) hmem_a
          · exact h
        have hih := ih R hcnd hR hmem'
        rw [hfc]
        simp only [List.length_cons]
        omega

/-- C3 (amended): whenever the post-insert eviction completes without
raising, the store holds at most `max_entries` entries afterwards; but in
the capacity-2 scenario the third store's eviction computes
`entries_to_remove = 3 - 2 + 10 = 11`, deletes all three entries and then
raises `IndexError`, so the store ends empty (not \x7bB, C\x7d). -/
theorem eviction_bound_amended :
    (∀ (cache : List (String × CacheEntry)) (maxEntries : Nat),
      (cache.map Prod.fst).Nodup → (cleanupCache cache maxEntries).2 = none →
      ((cleanupCache cache maxEntries).1).length ≤ maxEntries) ∧
    (evictDemo3.1 = .error ⟨.indexError, "list index out of range"⟩ ∧
      evictDemo3.2.cache = []) := by
  constructor
  · intro cache maxE hnd hok
    by_cases hle : cache.length ≤ maxE
    · simp [cleanupCache, hle]
    · simp only [cleanupCache, if_neg hle] at hok ⊢
      by_cases hnle : cache.length - maxE + 10 ≤
          (pySorted (fun a b => decide (a.2.lastAccessed < b.2.lastAccessed)) cache).length
      · simp only [if_pos hnle] at hok ⊢
        have hperm := pySorted_perm
          (fun a b => decide (a.2.lastAccessed < b.2.lastAccessed)) cache
        have hkeysperm := hperm.map Prod.fst
        have hSnodup := hkeysperm.symm.nodup hnd
        have hRsub := List.Sublist.map Prod.fst
          (List.take_sublist (cache.length - maxE + 10)
            (pySorted (fun a b => decide (a.2.lastAccessed < b.2.lastAccessed)) cache))
        have hRnodup := hRsub.nodup hSnodup
        have hSlen := hperm.length_eq
        have hRlen : ((List.take (cache.length - maxE + 10)
            (pySorted (fun a b => decide (a.2.lastAccessed < b.2.lastAccessed)) cache)).map
              Prod.fst).length = cache.length - maxE + 10 := by
          rw [List.length_map, List.length_take]
          omega
        have hRmem : ∀ k ∈ (List.take (cache.length - maxE + 10)
            (pySorted (fun a b => decide (a.2.lastAccessed < b.2.lastAccessed)) cache)).map
              Prod.fst, k ∈ cache.map Prod.fst :=
          fun k hk => hkeysperm.mem_iff.mp (hRsub.subset hk)
        have hcount := filter_not_mem_keys_length
          ((List.take (cache.length - maxE + 10)
            (pySorted (fun a b => decide (a.2.lastAccessed < b.2.lastAccessed)) cache)).map
              Prod.fst) cache hnd hRnodup hRmem
        rw [hRlen] at hcount
        omega
      · simp [if_neg hnle] at hok
  · exact ⟨by decide, by decide⟩

/-- Witness for `eviction_bound_amended`: a concrete two-entry store with
distinct keys under capacity 2 completes cleanup within the bound. -/
theorem eviction_bound_amended_witness :
    ((cleanupCache [("k1", ⟨QVal.plain 1, "SELECT 1", none, "f", 0, 300, 0, 0⟩),
        ("k2", ⟨QVal.plain 2, "SELECT 2", none, "f", 1, 301, 0, 1⟩)] 2).1).length ≤ 2 :=
  eviction_bound_amended.1
    [("k1", ⟨QVal.plain 1, "SELECT 1", none, "f", 0, 300, 0, 0⟩),
     ("k2", ⟨QVal.plain 2, "SELECT 2", none, "f", 1, 301, 0, 1⟩)] 2
    (by decide) (by decide)

/-- C3 counterexample: storing fingerprints A, B, C in order (distinct
`SELECT`s at ticks 0, 1, 2) through `cache_query_advanced` with capacity 2
does not leave \x7bB, C\x7d: the third call raises `IndexError` from the
eviction loop and the final store is empty — in particular B's entry is
gone. -/
theorem eviction_capacity2_counterexample :
    evictDemo3.1 = .error ⟨.indexError, "list index out of range"⟩ ∧
    evictDemo3.2.cache = [] ∧
    List.lookup (genCacheKey "SELECT 2" none "fetch") evictDemo3.2.cache = none := by
  refine ⟨by decide, by decide, by decide⟩

end DataAccess
